import Mathlib

/-!
Verification of the Track-Your-Time tracking engine (`tracker.py`,
`gui_tracker.py`) against its natural-language specification.

The Python code is shallowly embedded: dictionaries become association
lists (`List (String × _)`, insertion order preserved, first-occurrence
update, exactly the observable behaviour of a Python `dict`), numbers
become exact rationals `ℚ`, fallible operations return an explicit
`raised` flag or `Except`, and the sampling loop becomes a pure
step function over a session state fed with probe results.
-/

set_option maxRecDepth 100000

namespace TrackTime

/-! ## Association-list primitives (Python `dict` semantics) -/

/-- `lookupA m k` models `m[k]` / `k in m` on a Python dict whose
insertion order is the list order. -/
def lookupA {α : Type} : List (String × α) → String → Option α
  | [], _ => none
  | (k', v) :: t, k => if k' == k then some v else lookupA t k

/-- `setAt m k v` models `m[k] = v` for a key already present: the first
entry with key `k` is replaced in place, order preserved. -/
def setAt {α : Type} : List (String × α) → String → α → List (String × α)
  | [], _, _ => []
  | (k', x) :: t, k, v => if k' == k then (k', v) :: t else (k', x) :: setAt t k v

/-- `ensureVal m k v0` models `if k not in m: m[k] = v0` — appends a fresh
entry at the end when the key is absent (Python dict insertion order). -/
def ensureVal {α : Type} (m : List (String × α)) (k : String) (v0 : α) : List (String × α) :=
  if (lookupA m k).isSome then m else m ++ [(k, v0)]

/-- `bumpApps m k v` models `if k not in m: m[k] = 0` followed by `m[k] += v`. -/
def bumpApps (m : List (String × ℚ)) (k : String) (v : ℚ) : List (String × ℚ) :=
  setAt (ensureVal m k 0) k (((lookupA (ensureVal m k 0) k).getD 0) + v)

/-- Sum of the values of an association list, `sum(m.values())`. -/
def sumVals : List (String × ℚ) → ℚ
  | [] => 0
  | (_, v) :: t => v + sumVals t

/-! ## String primitives (Python `str.lower`, substring `in`) -/

/-- `isPrefOf p s`: `p` is a prefix of `s` (character lists). -/
def isPrefOf : List Char → List Char → Bool
  | [], _ => true
  | _ :: _, [] => false
  | a :: as, b :: bs => a == b && isPrefOf as bs

/-- `isSubOf p s` models Python's substring test `p in s`. -/
def isSubOf : List Char → List Char → Bool
  | p, [] => p.isEmpty
  | p, c :: rest => isPrefOf p (c :: rest) || isSubOf p rest

/-- ASCII lowering of one character, as Python `str.lower` acts on the
ASCII identifiers this program matches on. -/
def lowerChar (c : Char) : Char :=
  if c.toNat ≥ 65 && c.toNat ≤ 90 then Char.ofNat (c.toNat + 32) else c

/-- `lowerL s` models `s.lower()` on a character list. -/
def lowerL (s : List Char) : List Char := s.map lowerChar

/-- `anyKw kws al`: `any(x in app_lower for x in kws)`. -/
def anyKw (kws : List String) (al : List Char) : Bool :=
  kws.any (fun k => isSubOf k.toList al)

/-- Python string truthiness of an optional string argument:
`None` and `""` are falsy, everything else truthy. -/
def pyTruthy : Option String → Bool
  | none => false
  | some s => !(s == "")

/-! ## String sorting (Python `sorted` over code points) -/

/-- Code-point lexicographic `a <= b`, the order Python `sorted` uses
on the store's string keys. -/
def listLe : List Char → List Char → Bool
  | [], _ => true
  | _ :: _, [] => false
  | a :: as, b :: bs =>
    if a.toNat < b.toNat then true
    else if b.toNat < a.toNat then false
    else listLe as bs

def strLeB (a b : String) : Bool := listLe a.toList b.toList

def insertStr (x : String) : List String → List String
  | [] => [x]
  | y :: t => if strLeB x y then x :: y :: t else y :: insertStr x t

/-- Stable ascending sort, `sorted(keys)`. -/
def sortStrs : List String → List String
  | [] => []
  | x :: t => insertStr x (sortStrs t)

/-- `l[-n:]` on a Python list. -/
def lastN {α : Type} (n : Nat) (l : List α) : List α := l.drop (l.length - n)

/-! ## Classifier (`TimeTracker.categorize_app`)

Keyword tables transcribed verbatim from `tracker.py` lines 199-455.
The six site lists of the browser subgroup are inline literals in the
source; they are named here only so the definition stays readable. -/

def coding_keywords : List String :=
  ["vscode", "visual studio code", "pycharm", "intellij", "webstorm", "phpstorm",
   "goland", "rider", "clion", "datagrip", "rubymine", "appcode",
   "eclipse", "netbeans", "android studio", "xcode", "sublime", "atom",
   "brackets", "notepad++", "vim", "emacs", "nano", "gedit",
   "code.exe", "code - insiders",
   "jupyter", "spyder", "rstudio", "matlab", "octave",
   "postman", "insomnia", "swagger",
   "terminal", "iterm", "cmd.exe", "powershell", "wsl", "bash", "zsh",
   "windows terminal", "hyper", "alacritty", "kitty", "terminator",
   "putty", "winscp", "filezilla",
   "gitkraken", "sourcetree", "github desktop", "tower", "smartgit",
   "tortoisegit", "git gui",
   "dbeaver", "mysql workbench", "pgadmin", "sequel pro", "tableplus",
   "mongodb compass", "redis", "robo 3t",
   "docker", "kubernetes", "vagrant", "virtualbox", "vmware",
   "wireshark", "fiddler", "charles proxy"]

def browser_keywords : List String :=
  ["chrome", "firefox", "safari", "edge", "brave", "opera",
   "vivaldi", "arc", "chromium", "iexplore", "internet explorer"]

def browser_dev_sites : List String :=
  ["github", "gitlab", "bitbucket", "stackoverflow", "stack overflow",
   "leetcode", "hackerrank", "codepen", "codesandbox", "repl.it", "jsfiddle",
   "glitch", "stackblitz", "playcode", "codeanywhere",
   "mdn", "w3schools", "devdocs", "docs.python", "docs.microsoft",
   "developer.mozilla", "documentation", "api reference", "tutorial",
   "udemy", "coursera", "edx", "pluralsight", "skillshare", "freecodecamp",
   "khan academy", "codecademy", "udacity", "egghead", "frontend masters",
   "laracasts", "treehouse", "lynda", "datacamp", "educative",
   "vercel", "netlify", "heroku", "railway", "render", "fly.io",
   "aws console", "azure portal", "google cloud", "digitalocean",
   "cloudflare", "mongodb atlas", "supabase", "planetscale",
   "sentry", "datadog", "new relic", "grafana", "prometheus"]

def browser_social_sites : List String :=
  ["facebook", "twitter", "instagram", "tiktok", "snapchat",
   "reddit", "pinterest", "tumblr", "linkedin", "mastodon",
   "threads", "bluesky", "whatsapp web", "telegram web"]

def browser_entertainment_sites : List String :=
  ["youtube", "netflix", "twitch", "hulu", "disney", "prime video",
   "spotify", "soundcloud", "apple music", "pandora", "tidal",
   "crunchyroll", "funimation", "hbo", "peacock", "paramount"]

def browser_news_sites : List String :=
  ["news", "bbc", "cnn", "nytimes", "guardian", "reuters", "medium",
   "substack", "forbes", "techcrunch", "hacker news", "ycombinator",
   "wikipedia", "wikihow"]

def browser_shopping_sites : List String :=
  ["amazon", "ebay", "etsy", "aliexpress", "walmart", "target",
   "shop", "store", "cart", "checkout"]

def browser_productivity_sites : List String :=
  ["gmail", "outlook", "calendar", "google docs", "google sheets",
   "google drive", "dropbox", "notion", "todoist", "trello",
   "asana", "jira", "monday.com", "clickup", "linear", "airtable",
   "coda", "miro", "figma", "figjam", "whimsical", "lucidchart",
   "canva - edit", "excalidraw", "obsidian publish"]

def communication_keywords : List String :=
  ["slack", "discord", "teams", "microsoft teams", "zoom", "skype",
   "telegram", "whatsapp", "signal", "element", "matrix",
   "messenger", "wechat", "line", "viber", "groupme", "rocketchat",
   "mattermost", "zulip", "gitter", "chanty", "flock",
   "thunderbird", "outlook", "mail", "spark", "mailspring",
   "mailbird", "em client", "postbox", "claws mail",
   "webex", "gotomeeting", "bluejeans", "jitsi", "meet",
   "facetime", "google meet", "whereby", "around", "mmhmm",
   "discord - voice", "hangouts"]

def productivity_keywords : List String :=
  ["word", "winword", "excel", "powerpoint", "onenote", "access",
   "publisher", "outlook", "microsoft 365", "office", "teams - calendar",
   "google docs", "google sheets", "google slides", "google drive",
   "google calendar", "google keep",
   "pages", "numbers", "keynote", "reminders",
   "libreoffice", "openoffice", "wps office", "calligra", "onlyoffice",
   "notion", "obsidian", "evernote", "onenote", "simplenote",
   "bear", "roam", "logseq", "joplin", "standard notes", "remnote",
   "typora", "mark text", "notable", "craft", "amplenote", "mem",
   "reflect", "tana", "capacities", "anytype",
   "acrobat", "pdf", "foxit", "preview", "sumatra", "pdf-xchange",
   "trello", "asana", "monday", "clickup", "basecamp", "notion calendar",
   "jira", "confluence", "linear", "height", "shortcut", "pivotal tracker",
   "youtrack", "airtable", "smartsheet", "wrike", "teamwork",
   "todoist", "things", "any.do", "microsoft to do", "ticktick",
   "omnifocus", "taskwarrior", "2do", "remember the milk",
   "airtable", "coda", "excel", "notion database", "fibery",
   "toggl", "rescuetime", "timely", "clockify", "harvest",
   "miro", "mural", "figjam", "whimsical", "lucidchart", "draw.io",
   "excalidraw", "tldraw"]

def design_keywords : List String :=
  ["photoshop", "illustrator", "indesign", "lightroom", "acrobat",
   "gimp", "inkscape", "krita", "affinity photo", "affinity designer",
   "sketch", "figma", "adobe xd", "invision", "framer", "pixelmator",
   "paint.net", "paintshop", "corel draw", "canva", "penpot",
   "lunacy", "photopea", "fotor", "pixlr",
   "premiere", "after effects", "davinci resolve", "final cut",
   "imovie", "filmora", "camtasia", "shotcut", "kdenlive",
   "vegas", "avid", "blender", "olive", "openshot",
   "maya", "cinema 4d", "zbrush", "houdini", "3ds max",
   "unity", "unreal", "godot", "substance painter", "marmoset",
   "audacity", "logic pro", "ableton", "fl studio", "reaper",
   "pro tools", "garage band", "cubase", "studio one", "ardour",
   "lmms", "caustic",
   "penpot", "figma", "sketch", "axure", "balsamiq", "mockplus",
   "principle", "protopie", "flinto", "origami studio"]

def entertainment_keywords : List String :=
  ["spotify", "apple music", "itunes", "music", "vlc", "windows media",
   "quicktime", "netflix", "youtube", "twitch", "hulu", "disney+",
   "plex", "kodi", "jellyfin", "emby", "amazon prime video",
   "hbo max", "paramount+", "peacock", "apple tv", "crunchyroll",
   "steam", "epic games", "epicgameslauncher", "gog galaxy", "origin", "uplay",
   "battle.net", "battlenet", "blizzard", "riot client", "riotclientservices",
   "xbox", "playstation", "ea app", "rockstar games launcher",
   "bethesda launcher", "itch.io", "playnite",
   "minecraft", "fortnite", "valorant", "league of legends", "leagueoflegends",
   "dota", "dota2", "counter-strike", "csgo", "cs2", "overwatch",
   "apex legends", "apexlegends", "rocket league", "roblox", "among us",
   "fall guys", "wow", "world of warcraft", "destiny", "call of duty",
   "gta", "grand theft auto", "red dead", "elden ring", "baldurs gate",
   "cyberpunk", "witcher", "skyrim", "fallout", "halo", "warzone",
   "game", ".exe - ",
   "soundcloud", "pandora", "tidal", "deezer", "youtube music",
   "foobar2000", "winamp", "clementine", "rhythmbox"]

def social_keywords : List String :=
  ["facebook", "twitter", "instagram", "tiktok", "snapchat",
   "reddit", "pinterest", "linkedin", "mastodon", "threads"]

def education_keywords : List String :=
  ["anki", "quizlet", "duolingo", "rosetta stone",
   "mathematica", "maple", "geogebra", "desmos",
   "moodle", "canvas", "blackboard", "schoology",
   "zoom", "google classroom"]

def utility_keywords : List String :=
  ["calculator", "notepad", "textedit", "finder", "explorer",
   "settings", "control panel", "system preferences",
   "task manager", "activity monitor", "resource monitor",
   "7-zip", "winrar", "winzip", "archive utility",
   "snipping tool", "screenshot", "greenshot", "lightshot"]

def finance_keywords : List String :=
  ["quickbooks", "quicken", "mint", "ynab", "personal capital",
   "coinbase", "robinhood", "webull", "etrade", "fidelity",
   "paypal", "venmo", "cash app", "crypto"]

def reading_keywords : List String :=
  ["kindle", "apple books", "calibre", "goodreads",
   "pocket", "instapaper", "readwise", "reader"]

/-- The built-in keyword-group cascade of `categorize_app`, reached only
when no custom rule matched. -/
def builtin_category (app_lower : List Char) : String :=
  if anyKw coding_keywords app_lower then "Coding"
  else if anyKw browser_keywords app_lower then
    if anyKw browser_dev_sites app_lower then "Coding"
    else if anyKw browser_social_sites app_lower then "Social Media"
    else if anyKw browser_entertainment_sites app_lower then "Entertainment"
    else if anyKw browser_news_sites app_lower then "Reading"
    else if anyKw browser_shopping_sites app_lower then "Shopping"
    else if anyKw browser_productivity_sites app_lower then "Productivity"
    else "Browsing"
  else if anyKw communication_keywords app_lower then "Communication"
  else if anyKw productivity_keywords app_lower then "Productivity"
  else if anyKw design_keywords app_lower then "Design"
  else if anyKw entertainment_keywords app_lower then "Entertainment"
  else if anyKw social_keywords app_lower then "Social Media"
  else if anyKw education_keywords app_lower then "Education"
  else if anyKw utility_keywords app_lower then "Utilities"
  else if anyKw finance_keywords app_lower then "Finance"
  else if anyKw reading_keywords app_lower then "Reading"
  else "Other"

/-- The custom-rule scan: `for pattern, category in custom_categories.items():
if pattern.lower() in app_lower: return category`. -/
def firstRule : List (String × String) → List Char → Option String
  | [], _ => none
  | (pattern, category) :: rest, al =>
    if isSubOf (lowerL pattern.toList) al then some category else firstRule rest al

/-- `TimeTracker.categorize_app`: custom rules first (insertion order,
first match wins), then the built-in keyword groups, default `"Other"`. -/
def categorize_app (custom_categories : List (String × String)) (app_name : String) : String :=
  let app_lower := lowerL app_name.toList
  match firstRule custom_categories app_lower with
  | some category => category
  | none => builtin_category app_lower

/-! ## Data model (`self.data`, `self.config`) -/

/-- One category's accumulated time for one day (`self.data[date][category]`).
`projects` is `none` when the JSON value is `null` and `some m` when it is
a mapping — `record_time` creates it as `{} if project else None`. -/
structure Bucket where
  total_seconds : ℚ
  apps : List (String × ℚ)
  projects : Option (List (String × ℚ))
deriving DecidableEq

/-- The `"streaks"` ledger. Numbers are kept as rationals, exactly as the
JSON document stores untyped numbers. -/
structure Streaks where
  current : ℚ
  longest : ℚ
  last_date : Option String
deriving DecidableEq

/-- A day record: category name → bucket, insertion ordered. -/
abbrev DayL := List (String × Bucket)

/-- `self.data`: date keys → day records, plus the reserved `"streaks"`
entry living in the same dictionary. -/
structure Store where
  days : List (String × DayL)
  streaks : Streaks
deriving DecidableEq

/-- The slice of `self.config` the tracking engine reads. -/
structure Config where
  idle_threshold : ℚ
  check_interval : ℚ
  custom_categories : List (String × String)
  excluded_apps : List String
  focus_mode_blocked : List String
  goals : List (String × ℚ)
  productive_categories : List String
deriving DecidableEq

/-- Result of a mutating accounting call: the store after the call and
whether the call raised (`TypeError` from the `projects` field being
`None`). Python mutates `self.data` in place, so the mutated store is
returned even when the call raised. -/
structure RecResult where
  store : Store
  raised : Bool
deriving DecidableEq

/-! ## `TimeTracker.record_time` (tracker.py lines 698-732) -/

/-- `record_time(app_name, duration_seconds, project)` with "today"'s date
key passed explicitly (the source reads the wall clock). -/
def record_time (cfg : Config) (today : String) (st : Store) (app_name : String)
    (duration_seconds : ℚ) (project : Option String) : RecResult :=
  if cfg.excluded_apps.any (fun excluded => isSubOf excluded.toList (lowerL app_name.toList)) then
    ⟨st, false⟩
  else
    let category := categorize_app cfg.custom_categories app_name
    let days0 := ensureVal st.days today []
    let day0 := (lookupA days0 today).getD []
    let day1 := ensureVal day0 category
      ⟨0, [], if pyTruthy project then some [] else none⟩
    let b0 := (lookupA day1 category).getD ⟨0, [], none⟩
    let b1 : Bucket :=
      ⟨b0.total_seconds + duration_seconds, bumpApps b0.apps app_name duration_seconds,
       b0.projects⟩
    if pyTruthy project then
      match b1.projects with
      | none =>
        ⟨⟨setAt days0 today (setAt day1 category b1), st.streaks⟩, true⟩
      | some ps =>
        let b2 : Bucket :=
          ⟨b1.total_seconds, b1.apps,
           some (bumpApps ps (project.getD "") duration_seconds)⟩
        ⟨⟨setAt days0 today (setAt day1 category b2), st.streaks⟩, false⟩
    else
      ⟨⟨setAt days0 today (setAt day1 category b1), st.streaks⟩, false⟩

/-! ## `TimeTracker.manual_time_entry` (tracker.py lines 734-763) -/

/-- `manual_time_entry(app_name, category, duration_minutes, project, date)`;
`date=None` defaults to today. The caller-supplied category bypasses the
classifier; a freshly created bucket always gets `projects = {}`. -/
def manual_time_entry (today : String) (st : Store) (app_name category : String)
    (duration_minutes : ℚ) (project : Option String) (date : Option String) : RecResult :=
  let date := date.getD today
  let days0 := ensureVal st.days date []
  let day0 := (lookupA days0 date).getD []
  let day1 := ensureVal day0 category ⟨0, [], some []⟩
  let duration_seconds := duration_minutes * 60
  let b0 := (lookupA day1 category).getD ⟨0, [], none⟩
  let b1 : Bucket :=
    ⟨b0.total_seconds + duration_seconds, bumpApps b0.apps app_name duration_seconds,
     b0.projects⟩
  if pyTruthy project then
    match b1.projects with
    | none =>
      ⟨⟨setAt days0 date (setAt day1 category b1), st.streaks⟩, true⟩
    | some ps =>
      let b2 : Bucket :=
        ⟨b1.total_seconds, b1.apps,
         some (bumpApps ps (project.getD "") duration_seconds)⟩
      ⟨⟨setAt days0 date (setAt day1 category b2), st.streaks⟩, false⟩
  else
    ⟨⟨setAt days0 date (setAt day1 category b1), st.streaks⟩, false⟩

/-! ## `TimeTracker.update_streaks` (tracker.py lines 527-565) -/

/-- `update_streaks()`, with today's and yesterday's date keys passed
explicitly. Notifications have no effect on the store and are omitted. -/
def update_streaks (cfg : Config) (today yesterday : String) (st : Store) : Store :=
  if !(st.streaks.last_date == some today) && (lookupA st.days yesterday).isSome then
    let yd := (lookupA st.days yesterday).getD []
    let goals_met := cfg.goals.all (fun g =>
      if cfg.productive_categories.contains g.1 then
        let actual_hours :=
          (match lookupA yd g.1 with
           | some b => b.total_seconds
           | none => 0) / 3600
        !(decide (actual_hours < g.2))
      else true)
    let s := st.streaks
    if goals_met then
      let current := if s.last_date == some yesterday then s.current + 1 else 1
      let longest := if decide (s.longest < current) then current else s.longest
      ⟨st.days, ⟨current, longest, some today⟩⟩
    else
      ⟨st.days, ⟨0, s.longest, some today⟩⟩
  else st

/-! ## Sequences of accounting calls (for the conservation invariant) -/

/-- One accounting mutation: an automatic `record_time` or a manual entry. -/
inductive TrackOp
  | auto (today app_name : String) (duration : ℚ) (project : Option String)
  | manual (today app_name category : String) (minutes : ℚ) (project : Option String)
      (date : Option String)

/-- Apply one accounting call; per Python in-place mutation the resulting
store is kept even when the call raised. -/
def applyOp (cfg : Config) (st : Store) : TrackOp → Store
  | .auto today app dur project => (record_time cfg today st app dur project).store
  | .manual today app category minutes project date =>
    (manual_time_entry today st app category minutes project date).store

def applyOps (cfg : Config) (ops : List TrackOp) (st : Store) : Store :=
  ops.foldl (applyOp cfg) st

/-- `total_seconds == sum(apps.values())` for one bucket. -/
def bucketInvB (b : Bucket) : Bool := b.total_seconds == sumVals b.apps

/-- All values of an association list satisfy `q`. -/
def allVals {α : Type} (q : α → Bool) (l : List (String × α)) : Bool :=
  l.all (fun kv => q kv.2)

/-- Every bucket of a day record satisfies conservation. -/
def dayInvB (d : DayL) : Bool := allVals bucketInvB d

/-- The conservation invariant over every date and category of the store. -/
def storeInvB (st : Store) : Bool := allVals dayInvB st.days

/-! ## Tracking loop (`TimeTracker.run`, `TimeTrackerGUI.run_tracker`)

One loop iteration becomes a pure step function. Probe results arrive as
`Except` values: `.error e` models the probe call raising `e`. The wall
clock `time.time()` becomes the explicit `now` argument. `current_app`
and `start_time` are always assigned together in the source, so they are
paired into one optional field. -/

/-- The ephemeral tracking session (`current_app`/`start_time`,
`current_project`, `is_paused`, `focus_mode`). -/
structure Session where
  tracking : Option (String × ℚ)
  current_project : Option String
  is_paused : Bool
  focus_mode : Bool
deriving DecidableEq

/-- Result of one non-raising loop iteration: the next session, the store,
and the `record_time` calls made this tick (app, seconds), in order. -/
structure TickOut where
  session : Session
  store : Store
  calls : List (String × ℚ)
deriving DecidableEq

/-- `TimeTracker.is_app_blocked`: focus-mode blocklist, patterns matched
verbatim against the lowercased app name. -/
def is_app_blocked (focus_mode : Bool) (cfg : Config) (app_name : String) : Bool :=
  if !focus_mode then false
  else cfg.focus_mode_blocked.any
    (fun blocked_app => isSubOf blocked_app.toList (lowerL app_name.toList))

/-- One iteration of the CLI loop body (`TimeTracker.run`, lines 963-1031).
The body runs under `try ... except KeyboardInterrupt` only, so a probe or
`record_time` exception propagates and terminates the loop: that is the
`.error` case, carrying the exception text and the state (mutated in place
up to the raise point). Display and notification code that never touches
the store is omitted. -/
def runTickCLI (cfg : Config) (today : String) (now : ℚ)
    (idleR : Except String ℚ) (winR : Except String String)
    (st : Session) (data : Store) : Except (String × Session × Store) TickOut :=
  if st.is_paused then .ok ⟨st, data, []⟩
  else
    match idleR with
    | .error e => .error (e, st, data)
    | .ok idle_time =>
      if idle_time < cfg.idle_threshold then
        match winR with
        | .error e => .error (e, st, data)
        | .ok app =>
          if !(app == "") && !(app == "Unknown") then
            if is_app_blocked st.focus_mode cfg app then .ok ⟨st, data, []⟩
            else
              match st.tracking with
              | some (current_app, start_time) =>
                if current_app == app then
                  let elapsed := now - start_time
                  if cfg.check_interval ≤ elapsed then
                    let r := record_time cfg today data app elapsed st.current_project
                    if r.raised then .error ("TypeError", st, r.store)
                    else
                      .ok ⟨⟨some (app, now), st.current_project, st.is_paused, st.focus_mode⟩,
                           r.store, [(app, elapsed)]⟩
                  else .ok ⟨st, data, []⟩
                else
                  let elapsed := now - start_time
                  let r := record_time cfg today data current_app elapsed st.current_project
                  if r.raised then .error ("TypeError", st, r.store)
                  else
                    .ok ⟨⟨some (app, now), st.current_project, st.is_paused, st.focus_mode⟩,
                         r.store, [(current_app, elapsed)]⟩
              | none =>
                .ok ⟨⟨some (app, now), st.current_project, st.is_paused, st.focus_mode⟩,
                     data, []⟩
          else .ok ⟨st, data, []⟩
      else
        match st.tracking with
        | some _ =>
          .ok ⟨⟨none, st.current_project, st.is_paused, st.focus_mode⟩, data, []⟩
        | none => .ok ⟨st, data, []⟩

/-- The body of one GUI loop iteration (`TimeTrackerGUI.run_tracker`,
lines 753-790), before its per-iteration `except Exception` handler.
It has no pause check and no blocked-window minimization, but the same
idle / unknown / continuation / switch logic as the CLI loop. -/
def runTickGUIBody (cfg : Config) (today : String) (now : ℚ)
    (idleR : Except String ℚ) (winR : Except String String)
    (st : Session) (data : Store) : Except (String × Session × Store) TickOut :=
  match idleR with
  | .error e => .error (e, st, data)
  | .ok idle_time =>
    if idle_time < cfg.idle_threshold then
      match winR with
      | .error e => .error (e, st, data)
      | .ok app =>
        if !(app == "") && !(app == "Unknown") then
          if is_app_blocked st.focus_mode cfg app then .ok ⟨st, data, []⟩
          else
            match st.tracking with
            | some (current_app, start_time) =>
              if current_app == app then
                let elapsed := now - start_time
                if (5 : ℚ) ≤ elapsed then
                  let r := record_time cfg today data app elapsed st.current_project
                  if r.raised then .error ("TypeError", st, r.store)
                  else
                    .ok ⟨⟨some (app, now), st.current_project, st.is_paused, st.focus_mode⟩,
                         r.store, [(app, elapsed)]⟩
                else .ok ⟨st, data, []⟩
              else
                let elapsed := now - start_time
                let r := record_time cfg today data current_app elapsed st.current_project
                if r.raised then .error ("TypeError", st, r.store)
                else
                  .ok ⟨⟨some (app, now), st.current_project, st.is_paused, st.focus_mode⟩,
                       r.store, [(current_app, elapsed)]⟩
            | none =>
              .ok ⟨⟨some (app, now), st.current_project, st.is_paused, st.focus_mode⟩,
                   data, []⟩
        else .ok ⟨st, data, []⟩
    else
      match st.tracking with
      | some _ =>
        .ok ⟨⟨none, st.current_project, st.is_paused, st.focus_mode⟩, data, []⟩
      | none => .ok ⟨st, data, []⟩

/-- One full GUI loop iteration: the `try ... except Exception as e` wrapper
catches any exception raised by the body, stores it in `last_error`
(returned here as the third component), and the loop continues. -/
def runTickGUI (cfg : Config) (today : String) (now : ℚ)
    (idleR : Except String ℚ) (winR : Except String String)
    (st : Session) (data : Store) : Session × Store × Option String :=
  match runTickGUIBody cfg today now idleR winR st data with
  | .ok r => (r.session, r.store, none)
  | .error (e, st', data') => (st', data', some e)

/-- The probe inputs one tick of the loop consumes. -/
structure TickIn where
  now : ℚ
  idleR : Except String ℚ
  winR : Except String String

/-- The GUI loop (`while self.is_tracking`) run over a finite schedule of
tick inputs, counting completed iterations. -/
def runGUILoop (cfg : Config) (today : String) :
    List TickIn → Session → Store → Nat → Session × Store × Nat
  | [], st, data, n => (st, data, n)
  | t :: ts, st, data, n =>
    match runTickGUI cfg today t.now t.idleR t.winR st data with
    | (st', data', _) => runGUILoop cfg today ts st' data' (n + 1)

/-! ## The persisted JSON document (`save_data` / `load_data`)

`self.data` is an untyped JSON object: date keys map to day objects and
the reserved `"streaks"` key maps to the ledger. The aggregation
functions (`export_csv`, `display_insights`, `list_previous_days`)
iterate over this untyped dictionary, so they are modelled on the JSON
value itself; Python subscripting and `.items()` on a non-dict raise. -/

/-- JSON values as this program produces them. -/
inductive J where
  | null : J
  | num : ℚ → J
  | str : String → J
  | obj : List (String × J) → J

/-- `x[k]` on a JSON value: `KeyError` when the key is absent,
`TypeError` when `x` is not a dict. -/
def pySubscript : J → String → Except String J
  | .obj fs, k =>
    match lookupA fs k with
    | some v => .ok v
    | none => .error "KeyError"
  | _, _ => .error "TypeError"

/-- `x.items()` on a JSON value: `AttributeError` when `x` is not a dict. -/
def pyItems : J → Except String (List (String × J))
  | .obj fs => .ok fs
  | _ => .error "AttributeError"

/-- `x.get(k, default)` on a JSON value. -/
def pyDictGet (x : J) (k : String) (dflt : J) : Except String J :=
  match x with
  | .obj fs => .ok ((lookupA fs k).getD dflt)
  | _ => .error "AttributeError"

/-- Serialization of one category bucket. -/
def bucketToJ (b : Bucket) : J :=
  .obj [("total_seconds", .num b.total_seconds),
        ("apps", .obj (b.apps.map (fun kv => (kv.1, J.num kv.2)))),
        ("projects",
          match b.projects with
          | none => .null
          | some ps => .obj (ps.map (fun kv => (kv.1, J.num kv.2))))]

def dayToJ (d : DayL) : J := .obj (d.map (fun kv => (kv.1, bucketToJ kv.2)))

def streaksToJ (s : Streaks) : J :=
  .obj [("current", .num s.current), ("longest", .num s.longest),
        ("last_date",
          match s.last_date with
          | none => .null
          | some d => .str d)]

/-- `TimeTracker.save_data`: the whole in-memory dictionary written as one
JSON document (`json.dump(self.data, f)`). -/
def save_data (st : Store) : J :=
  .obj (st.days.map (fun kv => (kv.1, dayToJ kv.2)) ++ [("streaks", streaksToJ st.streaks)])

def numFieldsOfJ : List (String × J) → Option (List (String × ℚ))
  | [] => some []
  | (k, v) :: t =>
    match v with
    | .num q => (numFieldsOfJ t).map (fun r => (k, q) :: r)
    | _ => none

def bucketOfJ : J → Option Bucket
  | .obj fs =>
    match lookupA fs "total_seconds", lookupA fs "apps", lookupA fs "projects" with
    | some (.num t), some (.obj as), some pj =>
      match numFieldsOfJ as with
      | some apps =>
        match pj with
        | .null => some ⟨t, apps, none⟩
        | .obj ps => (numFieldsOfJ ps).map (fun l => ⟨t, apps, some l⟩)
        | _ => none
      | none => none
    | _, _, _ => none
  | _ => none

def catsOfJ : List (String × J) → Option DayL
  | [] => some []
  | (k, v) :: t =>
    match bucketOfJ v with
    | some b => (catsOfJ t).map (fun r => (k, b) :: r)
    | none => none

def daysOfJ : List (String × J) → Option (List (String × DayL))
  | [] => some []
  | (k, v) :: t =>
    match v with
    | .obj cs =>
      match catsOfJ cs with
      | some day => (daysOfJ t).map (fun r => (k, day) :: r)
      | none => none
    | _ => none

def streaksOfJ : J → Option Streaks
  | .obj fs =>
    match lookupA fs "current", lookupA fs "longest", lookupA fs "last_date" with
    | some (.num c), some (.num l), some ld =>
      match ld with
      | .null => some ⟨c, l, none⟩
      | .str d => some ⟨c, l, some d⟩
      | _ => none
    | _, _, _ => none
  | _ => none

/-- `TimeTracker.load_data` applied to a persisted document
(`json.load`), mapped back onto the typed store. -/
def load_data (j : J) : Option Store :=
  match j with
  | .obj fs =>
    match lookupA fs "streaks" with
    | some sj =>
      match streaksOfJ sj, daysOfJ (fs.filter (fun kv => !(kv.1 == "streaks"))) with
      | some s, some ds => some ⟨ds, s⟩
      | _, _ => none
    | none => none
  | _ => none

/-! ## Date-range aggregations over the raw dictionary

`export_csv` (lines 911-922), `display_insights` (lines 857-909) and
`list_previous_days` (lines 924-940) all iterate `self.data.keys()`
without excluding the `"streaks"` entry. -/

/-- One CSV data row: `[date, category, app, hours]`. -/
abbrev Row := String × String × String × ℚ

/-- `for app, seconds in data["apps"].items(): writerow(...)`. -/
def rowsForCat (date category : String) (catData : J) : Except String (List Row) := do
  let apps ← pySubscript catData "apps"
  let items ← pyItems apps
  items.foldlM (fun acc kv =>
    match kv.2 with
    | .num seconds => pure (acc ++ [(date, category, kv.1, seconds / 3600)])
    | _ => Except.error "TypeError") []

/-- `for category, data in self.data[date].items()`. -/
def rowsForDate (data : J) (date : String) : Except String (List Row) := do
  let dateVal ← pySubscript data date
  let items ← pyItems dateVal
  items.foldlM (fun acc kv => do
    let r ← rowsForCat date kv.1 kv.2
    pure (acc ++ r)) []

/-- `TimeTracker.export_csv`: the rows written after the header, in
iteration order `sorted(self.data.keys())`. -/
def export_csv (data : J) : Except String (List Row) :=
  match data with
  | .obj fs =>
    (sortStrs (fs.map (fun kv => kv.1))).foldlM (fun acc date => do
      let r ← rowsForDate (.obj fs) date
      pure (acc ++ r)) []
  | _ => .error "AttributeError"

/-- `sum(self.data[date].get(cat, \x7b\x7d).get("total_seconds", 0) for cat in cats)`
— the productive/unproductive sums of `display_insights`. -/
def insightsCatSum (dateVal : J) (cats : List String) : Except String ℚ :=
  cats.foldlM (fun acc cat => do
    let bucket ← pyDictGet dateVal cat (.obj [])
    let t ← pyDictGet bucket "total_seconds" (.num 0)
    match t with
    | .num q => pure (acc + q)
    | _ => Except.error "TypeError") 0

/-- `sum(data["total_seconds"] for data in self.data[date].values())`. -/
def sumTotalSeconds (dateVal : J) : Except String ℚ := do
  let items ← pyItems dateVal
  items.foldlM (fun acc kv => do
    let t ← pySubscript kv.2 "total_seconds"
    match t with
    | .num q => pure (acc + q)
    | _ => Except.error "TypeError") 0

/-- The per-date accumulation loop of `TimeTracker.display_insights` over
`sorted(self.data.keys())[-7:]`: productive hours, unproductive hours and
daily totals per date. The early `if not self.data` guard returns an
empty result. -/
def display_insights (data : J) : Except String (List (String × ℚ × ℚ × ℚ)) :=
  match data with
  | .obj fs =>
    if fs.isEmpty then .ok []
    else
      (lastN 7 (sortStrs (fs.map (fun kv => kv.1)))).foldlM (fun acc date => do
        let dateVal ← pySubscript (.obj fs) date
        let prod ← insightsCatSum dateVal ["Coding", "Productivity"]
        let unprod ← insightsCatSum dateVal ["Entertainment"]
        let total ← sumTotalSeconds dateVal
        pure (acc ++ [(date, prod / 3600, unprod / 3600, total / 3600)])) []
  | _ => .error "AttributeError"

/-- `TimeTracker.list_previous_days`: for each of the first `num_days`
keys of `sorted(self.data.keys(), reverse=True)`, the day's total hours. -/
def list_previous_days (data : J) (num_days : Nat) : Except String (List (String × ℚ)) :=
  match data with
  | .obj fs =>
    ((sortStrs (fs.map (fun kv => kv.1))).reverse.take num_days).foldlM (fun acc date => do
      let dateVal ← pySubscript (.obj fs) date
      let total ← sumTotalSeconds dateVal
      pure (acc ++ [(date, total / 3600)])) []
  | _ => .error "AttributeError"

/-! ## Concrete fixtures used by witnesses and counterexamples -/

/-- The default configuration slice: idle threshold 300 s, tick period 5 s,
no custom rules, exclusions, goals or productive categories. -/
def cfg0 : Config := ⟨300, 5, [], [], [], [], []⟩

/-- A fresh store, as `__init__` leaves it. -/
def store0 : Store := ⟨[], ⟨0, 0, none⟩⟩

/-- Exclusion list with a lowercase pattern. -/
def cfgExcludedLower : Config := ⟨300, 5, [], ["chrome"], [], [], []⟩

/-- Exclusion list with a capitalized pattern, as a user may enter it. -/
def cfgExcludedUpper : Config := ⟨300, 5, [], ["Chrome"], [], [], []⟩

/-- A 4-hour Coding goal with Coding marked productive. -/
def cfgGoal : Config := ⟨300, 5, [], [], [], [("Coding", 4)], ["Coding"]⟩

/-- The bucket `record_time` leaves behind after recording 5 s of `"app"`
with no project: its `projects` field is `None`. -/
def bOther : Bucket := ⟨5, [("app", 5)], none⟩

def dayOther : DayL := [("Other", bOther)]

/-- A store holding one day with that bucket. -/
def stOther : Store := ⟨[("2024-01-10", dayOther)], ⟨0, 0, none⟩⟩

/-- A store with one tracked day, used for the aggregation crashes. -/
def stExport : Store := ⟨[("2024-01-01", [("Coding", ⟨10, [("vim", 10)], none⟩)])], ⟨0, 0, none⟩⟩

/-- A 5-day streak whose last update was on 2024-01-01. -/
def stStreak5 : Store := ⟨[], ⟨5, 5, some "2024-01-01"⟩⟩

/-- A store exercising every serialized field. -/
def stRound : Store :=
  ⟨[("2024-01-01", [("Coding", ⟨10, [("vim", 10)], some [("p", 4)]⟩)]),
    ("2024-01-02", [("Other", ⟨7, [("app", 7)], none⟩)])],
   ⟨2, 3, some "2024-01-01"⟩⟩

/-- A short mixed sequence of automatic and manual accounting calls. -/
def opsDemo : List TrackOp :=
  [.auto "2024-01-10" "vim" 120 none,
   .manual "2024-01-10" "Notes" "Writing" 30 (some "thesis") none,
   .auto "2024-01-10" "Chrome" 10 (some "thesis"),
   .auto "2024-01-10" "vim" 65 none]

end TrackTime

namespace TrackTime

example : isSubOf "chrome".toList (lowerL "Google Chrome".toList) = true := by decide

example :
    (record_time ⟨300, 5, [], [], [], [], []⟩ "2024-01-10" ⟨[], ⟨0, 0, none⟩⟩ "app" 5 none).store =
      ⟨[("2024-01-10", [("Other", ⟨5, [("app", 5)], none⟩)])], ⟨0, 0, none⟩⟩ := by
  with_unfolding_all decide

example :
    (manual_time_entry "2024-01-01" ⟨[], ⟨0, 0, none⟩⟩ "Notes" "Writing" 30 none none).store =
      ⟨[("2024-01-01", [("Writing", ⟨1800, [("Notes", 1800)], some []⟩)])], ⟨0, 0, none⟩⟩ := by
  with_unfolding_all decide

example : categorize_app [] "Google Chrome - GitHub" = "Coding" := by decide

example : categorize_app [] "Google Chrome" = "Browsing" := by decide

example : categorize_app [("chrome", "Work")] "Google Chrome - YouTube" = "Work" := by decide

example : categorize_app [] "app" = "Other" := by decide

example : categorize_app [] "Chrome" = "Browsing" := by decide

example : lowerL "AbZ[".toList = "abz[".toList := by decide

example : sortStrs ["streaks", "2024-01-02", "2024-01-01"] =
    ["2024-01-01", "2024-01-02", "streaks"] := by decide

/-! ## Association-list lemmas -/

theorem lookupA_append_of_none {α : Type} {l : List (String × α)} {k : String}
    (h : lookupA l k = none) (v0 : α) : lookupA (l ++ [(k, v0)]) k = some v0 := by
  induction l with
  | nil => simp [lookupA]
  | cons hd t ih =>
    obtain ⟨k', x⟩ := hd
    by_cases hk : (k' == k) = true
    · simp [lookupA, hk] at h
    · simp only [lookupA, hk, List.cons_append, if_false] at h ⊢
      exact ih h

theorem lookupA_ensureVal_self {α : Type} (l : List (String × α)) (k : String) (v0 : α) :
    lookupA (ensureVal l k v0) k = some ((lookupA l k).getD v0) := by
  unfold ensureVal
  cases h : lookupA l k with
  | some v => simp [h]
  | none => simp [h, lookupA_append_of_none h v0]

theorem ensureVal_of_some {α : Type} {l : List (String × α)} {k : String} {v : α}
    (h : lookupA l k = some v) (v0 : α) : ensureVal l k v0 = l := by
  simp [ensureVal, h]

theorem lookupA_setAt_self {α : Type} {l : List (String × α)} {k : String}
    (h : (lookupA l k).isSome = true) (v : α) : lookupA (setAt l k v) k = some v := by
  induction l with
  | nil => simp [lookupA] at h
  | cons hd t ih =>
    obtain ⟨k', x⟩ := hd
    by_cases hk : (k' == k) = true
    · simp [lookupA, setAt, hk]
    · simp only [lookupA, setAt, hk, if_false] at h ⊢
      exact ih h

theorem sumVals_append (l1 l2 : List (String × ℚ)) :
    sumVals (l1 ++ l2) = sumVals l1 + sumVals l2 := by
  induction l1 with
  | nil => simp [sumVals]
  | cons hd t ih => obtain ⟨k, v⟩ := hd; simp [sumVals, ih]; ring

theorem sumVals_setAt {m : List (String × ℚ)} {k : String} {x : ℚ}
    (h : lookupA m k = some x) (w : ℚ) : sumVals (setAt m k w) = sumVals m - x + w := by
  induction m with
  | nil => simp [lookupA] at h
  | cons hd t ih =>
    obtain ⟨k', y⟩ := hd
    by_cases hk : (k' == k) = true
    · simp only [lookupA, hk, if_true, Option.some_inj] at h
      simp only [setAt, hk, if_true, sumVals, h]
      ring
    · simp only [lookupA, hk, if_false] at h
      simp only [setAt, hk, if_false, sumVals, ih h]
      ring

theorem sumVals_bumpApps (m : List (String × ℚ)) (k : String) (v : ℚ) :
    sumVals (bumpApps m k v) = sumVals m + v := by
  unfold bumpApps
  rw [sumVals_setAt (lookupA_ensureVal_self m k 0), lookupA_ensureVal_self m k 0]
  cases h : lookupA m k with
  | some x => rw [ensureVal_of_some h 0]; simp [h]; ring
  | none =>
    unfold ensureVal
    simp only [h, Option.isSome_none, Bool.false_eq_true, if_false, Option.getD_none,
      sumVals_append]
    simp [sumVals]

theorem allVals_ensureVal {α : Type} {q : α → Bool} {l : List (String × α)}
    (h : allVals q l = true) {v0 : α} (h0 : q v0 = true) (k : String) :
    allVals q (ensureVal l k v0) = true := by
  unfold ensureVal
  split
  · exact h
  · simp only [allVals, List.all_append, Bool.and_eq_true] at *
    exact ⟨h, by simp [h0]⟩

theorem allVals_setAt {α : Type} {q : α → Bool} {l : List (String × α)}
    (h : allVals q l = true) {v : α} (hv : q v = true) (k : String) :
    allVals q (setAt l k v) = true := by
  induction l with
  | nil => simp [setAt, allVals]
  | cons hd t ih =>
    obtain ⟨k', x⟩ := hd
    simp only [allVals, List.all_cons, Bool.and_eq_true] at h
    by_cases hk : (k' == k) = true
    · simp only [setAt, hk, if_true, allVals, List.all_cons, Bool.and_eq_true]
      exact ⟨hv, h.2⟩
    · simp only [setAt, hk, Bool.false_eq_true, if_false, allVals, List.all_cons,
        Bool.and_eq_true]
      exact ⟨h.1, ih h.2⟩

theorem lookupA_allVals {α : Type} {q : α → Bool} {l : List (String × α)}
    (h : allVals q l = true) {k : String} {v : α} (hk : lookupA l k = some v) :
    q v = true := by
  induction l with
  | nil => simp [lookupA] at hk
  | cons hd t ih =>
    obtain ⟨k', x⟩ := hd
    simp only [allVals, List.all_cons, Bool.and_eq_true] at h
    simp only [lookupA] at hk
    split at hk
    · cases hk; exact h.1
    · exact ih h.2 hk

/-! ## Conservation of `total_seconds == sum(apps.values())` -/

theorem dayInvB_update (day : DayL) (category app : String) (dur : ℚ)
    (pj0 pj : Option (List (String × ℚ))) (h : dayInvB day = true) :
    dayInvB (setAt (ensureVal day category ⟨0, [], pj0⟩) category
      ⟨((lookupA (ensureVal day category ⟨0, [], pj0⟩) category).getD
          ⟨0, [], none⟩).total_seconds + dur,
       bumpApps ((lookupA (ensureVal day category ⟨0, [], pj0⟩) category).getD
          ⟨0, [], none⟩).apps app dur,
       pj⟩) = true := by
  have h0 : bucketInvB ⟨0, [], pj0⟩ = true := by simp [bucketInvB, sumVals]
  have h1 : dayInvB (ensureVal day category ⟨0, [], pj0⟩) = true :=
    allVals_ensureVal h h0 category
  have h2 : lookupA (ensureVal day category ⟨0, [], pj0⟩) category
      = some ((lookupA day category).getD ⟨0, [], pj0⟩) :=
    lookupA_ensureVal_self day category ⟨0, [], pj0⟩
  have hb0 : bucketInvB ((lookupA (ensureVal day category ⟨0, [], pj0⟩) category).getD
      ⟨0, [], none⟩) = true := by
    rw [h2]
    exact lookupA_allVals h1 h2
  apply allVals_setAt h1 _ category
  simp only [bucketInvB, beq_iff_eq] at hb0 ⊢
  rw [sumVals_bumpApps, hb0]

theorem storeInvB_update (st : Store) (today : String) (newday : DayL) (s' : Streaks)
    (h : storeInvB st = true) (hd : dayInvB newday = true) :
    storeInvB ⟨setAt (ensureVal st.days today []) today newday, s'⟩ = true := by
  have h1 : allVals dayInvB (ensureVal st.days today []) = true :=
    allVals_ensureVal h (by simp [dayInvB, allVals]) today
  exact allVals_setAt h1 hd today

theorem day0_dayInvB (st : Store) (today : String) (h : storeInvB st = true) :
    dayInvB ((lookupA (ensureVal st.days today []) today).getD []) = true := by
  rw [lookupA_ensureVal_self]
  simp only [Option.getD_some]
  cases hlk : lookupA st.days today with
  | none => simp [dayInvB, allVals]
  | some d => simpa using lookupA_allVals h hlk

theorem record_time_storeInv (cfg : Config) (today : String) (st : Store) (app : String)
    (dur : ℚ) (project : Option String) (h : storeInvB st = true) :
    storeInvB (record_time cfg today st app dur project).store = true := by
  have hd := day0_dayInvB st today h
  simp only [record_time]
  split
  · exact h
  · split
    · split
      · exact storeInvB_update st today _ st.streaks h (dayInvB_update _ _ app dur _ _ hd)
      · exact storeInvB_update st today _ st.streaks h (dayInvB_update _ _ app dur _ _ hd)
    · exact storeInvB_update st today _ st.streaks h (dayInvB_update _ _ app dur _ _ hd)

theorem manual_time_entry_storeInv (today : String) (st : Store) (app category : String)
    (minutes : ℚ) (project : Option String) (date : Option String)
    (h : storeInvB st = true) :
    storeInvB (manual_time_entry today st app category minutes project date).store = true := by
  have hd := day0_dayInvB st (date.getD today) h
  simp only [manual_time_entry]
  split
  · split
    · exact storeInvB_update st _ _ st.streaks h (dayInvB_update _ _ app _ _ _ hd)
    · exact storeInvB_update st _ _ st.streaks h (dayInvB_update _ _ app _ _ _ hd)
  · exact storeInvB_update st _ _ st.streaks h (dayInvB_update _ _ app _ _ _ hd)

/-! ## Round-trip lemmas for persistence -/

theorem numFieldsOfJ_toJ (l : List (String × ℚ)) :
    numFieldsOfJ (l.map (fun kv => (kv.1, J.num kv.2))) = some l := by
  induction l with
  | nil => rfl
  | cons hd t ih => obtain ⟨k, v⟩ := hd; simp [numFieldsOfJ, ih]

theorem bucketOfJ_toJ (b : Bucket) : bucketOfJ (bucketToJ b) = some b := by
  obtain ⟨t, apps, pj⟩ := b
  cases pj with
  | none => simp [bucketToJ, bucketOfJ, lookupA, numFieldsOfJ_toJ]
  | some ps => simp [bucketToJ, bucketOfJ, lookupA, numFieldsOfJ_toJ]

theorem catsOfJ_toJ (d : DayL) :
    catsOfJ (d.map (fun kv => (kv.1, bucketToJ kv.2))) = some d := by
  induction d with
  | nil => rfl
  | cons hd t ih => obtain ⟨k, b⟩ := hd; simp [catsOfJ, bucketOfJ_toJ, ih]

theorem daysOfJ_toJ (ds : List (String × DayL)) :
    daysOfJ (ds.map (fun kv => (kv.1, dayToJ kv.2))) = some ds := by
  induction ds with
  | nil => rfl
  | cons hd t ih =>
    obtain ⟨k, d⟩ := hd
    have hd : dayToJ d = J.obj (d.map (fun kv => (kv.1, bucketToJ kv.2))) := rfl
    simp only [List.map_cons, hd, daysOfJ, catsOfJ_toJ]
    simp [ih]

theorem streaksOfJ_toJ (s : Streaks) : streaksOfJ (streaksToJ s) = some s := by
  obtain ⟨c, l, ld⟩ := s
  cases ld with
  | none => rfl
  | some d => rfl

theorem lookupA_daysToJ_streaks {ds : List (String × DayL)}
    (h : ds.all (fun kv => !(kv.1 == "streaks")) = true) :
    lookupA (ds.map (fun kv => (kv.1, dayToJ kv.2))) "streaks" = none := by
  induction ds with
  | nil => rfl
  | cons hd t ih =>
    obtain ⟨k, d⟩ := hd
    simp only [List.all_cons, Bool.and_eq_true] at h
    have hk : (k == "streaks") = false := by
      cases hkk : (k == "streaks") <;> simp_all
    simp only [List.map_cons, lookupA, hk, Bool.false_eq_true, if_false]
    exact ih h.2

theorem filter_daysToJ_streaks {ds : List (String × DayL)}
    (h : ds.all (fun kv => !(kv.1 == "streaks")) = true) (sj : J) :
    (ds.map (fun kv => (kv.1, dayToJ kv.2)) ++ [("streaks", sj)]).filter
      (fun kv => !(kv.1 == "streaks")) = ds.map (fun kv => (kv.1, dayToJ kv.2)) := by
  induction ds with
  | nil => rfl
  | cons hd t ih =>
    obtain ⟨k, d⟩ := hd
    simp only [List.all_cons, Bool.and_eq_true] at h
    simp only [List.map_cons, List.cons_append, List.filter_cons, h.1, if_true]
    rw [ih h.2]

/-! ## The GUI loop processes every scheduled tick -/

theorem runGUILoop_count (cfg : Config) (today : String) (ticks : List TickIn)
    (st : Session) (data : Store) (n : Nat) :
    (runGUILoop cfg today ticks st data n).2.2 = n + ticks.length := by
  induction ticks generalizing st data n with
  | nil => simp [runGUILoop]
  | cons t ts ih =>
    simp only [runGUILoop]
    rw [ih]
    simp [Nat.add_assoc, Nat.add_comm 1 ts.length]

/-! ## Claim theorems -/

/-- C1 (counterexample): on an idle tick (probed idle 400 s ≥ threshold
300 s) while `"app"` has been tracked since `start_time = 0` and `now = 7`,
BOTH loops — `TimeTracker.run` and `TimeTrackerGUI.run_tracker` — make
ZERO `record_time` calls: the store is unchanged and the 7 pending seconds
are discarded, while the claim demands exactly one flushing `record()`
call before `current_app` is nulled. -/
theorem c1_idle_tick_no_flush_cex :
    runTickCLI cfg0 "2024-01-10" 7 (.ok 400) (.ok "app")
        ⟨some ("app", 0), none, false, false⟩ store0 =
      .ok ⟨⟨none, none, false, false⟩, store0, []⟩ ∧
    runTickGUIBody cfg0 "2024-01-10" 7 (.ok 400) (.ok "app")
        ⟨some ("app", 0), none, false, false⟩ store0 =
      .ok ⟨⟨none, none, false, false⟩, store0, []⟩ := by
  refine ⟨by with_unfolding_all rfl, by with_unfolding_all rfl⟩

/-- C1 (amended): on any tick of `TimeTracker.run` OR of
`TimeTrackerGUI.run_tracker` where the probed idle seconds reach the idle
threshold, the loop sets `current_app`/`start_time` to null WITHOUT
calling `record_time`: the store is returned unchanged, the call list is
empty, and (therefore) subsequent idle ticks add zero additional seconds.
The three conjuncts cover the CLI loop body, the GUI loop body, and the
full GUI iteration including its exception handler (no error is logged). -/
theorem c1_idle_tick_discards_elapsed (cfg : Config) (today : String) (now idle : ℚ)
    (winR : Except String String) (st : Session) (data : Store)
    (hp : st.is_paused = false) (hidle : cfg.idle_threshold ≤ idle) :
    runTickCLI cfg today now (.ok idle) winR st data =
      .ok ⟨⟨none, st.current_project, st.is_paused, st.focus_mode⟩, data, []⟩ ∧
    runTickGUIBody cfg today now (.ok idle) winR st data =
      .ok ⟨⟨none, st.current_project, st.is_paused, st.focus_mode⟩, data, []⟩ ∧
    runTickGUI cfg today now (.ok idle) winR st data =
      (⟨none, st.current_project, st.is_paused, st.focus_mode⟩, data, none) := by
  obtain ⟨tr, cp, ip, fm⟩ := st
  simp only at hp
  subst hp
  have hgui : runTickGUIBody cfg today now (.ok idle) winR ⟨tr, cp, false, fm⟩ data =
      .ok ⟨⟨none, cp, false, fm⟩, data, []⟩ := by
    simp only [runTickGUIBody]
    rw [if_neg (not_lt.mpr hidle)]
    cases tr <;> rfl
  refine ⟨?_, hgui, ?_⟩
  · simp only [runTickCLI, Bool.false_eq_true, if_false]
    rw [if_neg (not_lt.mpr hidle)]
    cases tr <;> rfl
  · simp only [runTickGUI, hgui]

/-- C1 witness: the amended theorem applied at a concrete idle tick. -/
theorem c1_idle_tick_discards_elapsed_witness :
    (⟨some ("vim", 10), some "thesis", false, true⟩ : Session).is_paused = false ∧
    cfg0.idle_threshold ≤ 301 ∧
    (runTickCLI cfg0 "2024-01-10" 50 (.ok 301) (.ok "vim")
        ⟨some ("vim", 10), some "thesis", false, true⟩ stOther =
      .ok ⟨⟨none, some "thesis", false, true⟩, stOther, []⟩ ∧
    runTickGUIBody cfg0 "2024-01-10" 50 (.ok 301) (.ok "vim")
        ⟨some ("vim", 10), some "thesis", false, true⟩ stOther =
      .ok ⟨⟨none, some "thesis", false, true⟩, stOther, []⟩ ∧
    runTickGUI cfg0 "2024-01-10" 50 (.ok 301) (.ok "vim")
        ⟨some ("vim", 10), some "thesis", false, true⟩ stOther =
      (⟨none, some "thesis", false, true⟩, stOther, none)) :=
  ⟨rfl, by with_unfolding_all decide,
   c1_idle_tick_discards_elapsed cfg0 "2024-01-10" 50 301 (.ok "vim")
     ⟨some ("vim", 10), some "thesis", false, true⟩ stOther rfl
     (by with_unfolding_all decide)⟩

/-- C2: the conservation invariant `total_seconds == sum(apps.values())`
holds in every `CategoryBucket` of the store after any sequence of
`record_time` and `manual_time_entry` calls, provided it held initially
(in particular starting from the fresh empty store). -/
theorem c2_accounting_conservation (cfg : Config) (ops : List TrackOp) (st : Store)
    (h : storeInvB st = true) : storeInvB (applyOps cfg ops st) = true := by
  induction ops generalizing st with
  | nil => exact h
  | cons op t ih =>
    cases op with
    | auto today app dur project =>
      exact ih _ (record_time_storeInv cfg today st app dur project h)
    | manual today app category minutes project date =>
      exact ih _ (manual_time_entry_storeInv today st app category minutes project date h)

/-- C2 witness: the invariant after a concrete mixed call sequence on the
fresh store. -/
theorem c2_accounting_conservation_witness :
    storeInvB store0 = true ∧ storeInvB (applyOps cfg0 opsDemo store0) = true :=
  ⟨by decide, c2_accounting_conservation cfg0 opsDemo store0 (by decide)⟩

/-- C4 (counterexample): a tick of the CLI loop (`TimeTracker.run`) in
which `record_time` raises `TypeError` (continuation flush of `"app"`
with a current project while the bucket's `projects` field is `None`)
terminates the tracking loop: the loop body propagates the exception
(only `KeyboardInterrupt` is handled), contradicting the claim that any
exception during a tick is caught and the loop proceeds. -/
theorem c4_cli_tick_exception_terminates_cex :
    runTickCLI cfg0 "2024-01-10" 6 (.ok 0) (.ok "app")
        ⟨some ("app", 0), some "P", false, false⟩ stOther =
      .error ("TypeError", ⟨some ("app", 0), some "P", false, false⟩,
        ⟨[("2024-01-10", [("Other", ⟨11, [("app", 11)], none⟩)])], ⟨0, 0, none⟩⟩) := by
  with_unfolding_all rfl

/-- C4 (amended): only the GUI loop (`TimeTrackerGUI.run_tracker`) has the
claimed behaviour: its per-iteration `except Exception` handler logs the
error and the loop continues, so every scheduled tick is processed — for
any tick schedule, including ticks whose probes raise or whose
`record_time` raises, the loop completes exactly `ticks.length`
iterations. -/
theorem c4_gui_loop_processes_every_tick (cfg : Config) (today : String)
    (ticks : List TickIn) (st : Session) (data : Store) :
    (runGUILoop cfg today ticks st data 0).2.2 = ticks.length := by
  rw [runGUILoop_count]
  exact Nat.zero_add _

/-- C5 (counterexample): the exclusion test is `excluded in app_name.lower()`
— the pattern is NOT lowercased. The pattern `"Chrome"` matches the app
`"Chrome"` under the claim's case-insensitive matching (first conjunct),
yet `record_time` proceeds: it mutates the store (second conjunct) instead
of leaving it unchanged. -/
theorem c5_uppercase_pattern_recorded_cex :
    isSubOf (lowerL "Chrome".toList) (lowerL "Chrome".toList) = true ∧
    (record_time cfgExcludedUpper "2024-01-10" store0 "Chrome" 10 none).store ≠ store0 ∧
    (record_time cfgExcludedUpper "2024-01-10" store0 "Chrome" 10 none).raised = false := by
  refine ⟨by decide, by with_unfolding_all decide, by with_unfolding_all rfl⟩

/-- C5 (amended): when some excluded pattern, matched VERBATIM, occurs in
the lowercased app name (which coincides with case-insensitive matching
exactly when the stored pattern is lowercase), `record_time` returns
without raising and leaves the store untouched. -/
theorem c5_excluded_app_no_mutation (cfg : Config) (today : String) (st : Store)
    (app_name : String) (dur : ℚ) (project : Option String)
    (h : cfg.excluded_apps.any
      (fun excluded => isSubOf excluded.toList (lowerL app_name.toList)) = true) :
    record_time cfg today st app_name dur project = ⟨st, false⟩ := by
  unfold record_time
  rw [h]
  rfl

/-- C5 witness: a lowercase excluded pattern `"chrome"` drops the sample
for `"Chrome Browser"` with the store unchanged. -/
theorem c5_excluded_app_no_mutation_witness :
    cfgExcludedLower.excluded_apps.any
      (fun excluded => isSubOf excluded.toList (lowerL "Chrome Browser".toList)) = true ∧
    record_time cfgExcludedLower "2024-01-10" stOther "Chrome Browser" 10 none =
      ⟨stOther, false⟩ :=
  ⟨by decide,
   c5_excluded_app_no_mutation cfgExcludedLower "2024-01-10" stOther "Chrome Browser" 10 none
     (by decide)⟩

/-- C8 (counterexample): pause does not discard the pending interval.
With `"app"` tracked since `t = 0`: a paused tick at `t = 10` changes
nothing (first conjunct, `current_app`/`start_time` retained), and after
resuming, the tick at `t = 100` flushes `100` seconds into the store —
including the ≈90 seconds that elapsed while paused — contradicting the
claim that no seconds elapsing during the paused interval are ever
attributed to an app after resume. -/
theorem c8_paused_interval_attributed_cex :
    (runTickCLI cfg0 "2024-01-10" 10 (.ok 0) (.ok "app")
        ⟨some ("app", 0), none, true, false⟩ store0 =
      .ok ⟨⟨some ("app", 0), none, true, false⟩, store0, []⟩) ∧
    (runTickCLI cfg0 "2024-01-10" 100 (.ok 0) (.ok "app")
        ⟨some ("app", 0), none, false, false⟩ store0 =
      .ok ⟨⟨some ("app", 100), none, false, false⟩,
        ⟨[("2024-01-10", [("Other", ⟨100, [("app", 100)], none⟩)])], ⟨0, 0, none⟩⟩,
        [("app", 100)]⟩) :=
  ⟨by with_unfolding_all rfl, by with_unfolding_all rfl⟩

/-- C8 (amended): pausing suspends accounting without flushing AND without
clearing the session: a paused tick leaves the session (including
`current_app` and `start_time`), the store and the call list untouched,
so the flush after resume spans the whole wall-clock interval since
`start_time`, pause included. -/
theorem c8_pause_is_noop_keeping_session (cfg : Config) (today : String) (now : ℚ)
    (idleR : Except String ℚ) (winR : Except String String) (st : Session) (data : Store)
    (hp : st.is_paused = true) :
    runTickCLI cfg today now idleR winR st data = .ok ⟨st, data, []⟩ := by
  unfold runTickCLI
  rw [hp]
  rfl

/-- C8 witness: the amended theorem at a concrete paused tick. -/
theorem c8_pause_is_noop_keeping_session_witness :
    (⟨some ("vim", 3), none, true, false⟩ : Session).is_paused = true ∧
    runTickCLI cfg0 "2024-01-10" 42 (.ok 0) (.ok "vim")
        ⟨some ("vim", 3), none, true, false⟩ stOther =
      .ok ⟨⟨some ("vim", 3), none, true, false⟩, stOther, []⟩ :=
  ⟨rfl, c8_pause_is_noop_keeping_session cfg0 "2024-01-10" 42 (.ok 0) (.ok "vim")
    ⟨some ("vim", 3), none, true, false⟩ stOther rfl⟩

/-- C3: the `"streaks"` entry is NOT excluded from the date iterations.
On the persisted document of a store holding one real day plus the
ledger that `__init__` always creates, all three aggregations raise
`TypeError` by subscripting the ledger's integer values as if they were
category buckets: `export_csv` at `self.data["streaks"]["current"]["apps"]`,
`display_insights` and `list_previous_days` at
`self.data["streaks"]["current"]["total_seconds"]`. -/
theorem c3_streaks_key_crashes_aggregations :
    export_csv (save_data stExport) = .error "TypeError" ∧
    display_insights (save_data stExport) = .error "TypeError" ∧
    list_previous_days (save_data stExport) 10 = .error "TypeError" := by
  refine ⟨?_, ?_, ?_⟩ <;> with_unfolding_all rfl

/-- C6: if some custom rule's pattern is a case-insensitive substring of
the app name, `categorize_app` returns the category of the FIRST matching
rule in insertion order — regardless of what the built-in keyword groups
would say, since the custom scan returns before they are consulted. -/
theorem c6_custom_rule_precedence (rules₁ rules₂ : List (String × String)) (p c app : String)
    (hnomatch : ∀ q d, (q, d) ∈ rules₁ → isSubOf (lowerL q.toList) (lowerL app.toList) = false)
    (hmatch : isSubOf (lowerL p.toList) (lowerL app.toList) = true) :
    categorize_app (rules₁ ++ (p, c) :: rules₂) app = c := by
  have hfr : firstRule (rules₁ ++ (p, c) :: rules₂) (lowerL app.toList) = some c := by
    induction rules₁ with
    | nil =>
      rw [List.nil_append]
      unfold firstRule
      rw [if_pos hmatch]
    | cons hd t ih =>
      obtain ⟨q, d⟩ := hd
      have hq := hnomatch q d (by simp)
      simp only [List.cons_append, firstRule, hq, Bool.false_eq_true, if_false]
      exact ih (fun q' d' hm => hnomatch q' d' (by simp [hm]))
  simp only [categorize_app, hfr]

/-- C6 witness: `"MyApp - Chrome"` matches both the custom rule
`("myapp", "Special")` and the built-in browser keyword `"chrome"`
(which alone would classify it as `"Browsing"`); the custom rule wins. -/
theorem c6_custom_rule_precedence_witness :
    isSubOf (lowerL "myapp".toList) (lowerL "MyApp - Chrome".toList) = true ∧
    anyKw browser_keywords (lowerL "MyApp - Chrome".toList) = true ∧
    categorize_app ([] ++ ("myapp", "Special") :: [("chrome", "Work")]) "MyApp - Chrome" =
      "Special" :=
  ⟨by decide, by decide,
   c6_custom_rule_precedence [] [("chrome", "Work")] "myapp" "Special" "MyApp - Chrome"
     (by simp) (by decide)⟩

/-- C7 (counterexample): with a 5-day streak, `last_date ≠ today`, a
productive `Coding` goal of 4 h, and NO DayRecord for yesterday at all,
`update_streaks` leaves the store completely unchanged — the streak stays
at 5 and `last_date` stays stale — whereas the claim says the goal is
treated as failed and `current` is reset to 0. -/
theorem c7_missing_yesterday_no_reset_cex :
    update_streaks cfgGoal "2024-01-10" "2024-01-09" stStreak5 = stStreak5 ∧
    stStreak5.streaks.current = 5 ∧
    stStreak5.streaks.last_date = some "2024-01-01" := by
  refine ⟨by with_unfolding_all rfl, rfl, rfl⟩

/-- C7 (amended): the reset happens only when a DayRecord for yesterday
EXISTS (`yesterday in self.data`): then a productive category with a
positive goal and no data in yesterday's record is scored as 0 hours,
the goal fails, `current` is reset to 0 and `last_date` becomes today.
When yesterday has no DayRecord, `update_streaks` changes nothing. -/
theorem c7_reset_requires_yesterday_record (cfg : Config) (today yesterday : String)
    (st : Store) (yd : DayL) (cat : String) (g : ℚ)
    (hld : ¬ st.streaks.last_date = some today)
    (hyd : lookupA st.days yesterday = some yd)
    (hmem : (cat, g) ∈ cfg.goals)
    (hprod : cfg.productive_categories.contains cat = true)
    (hg : 0 < g)
    (hnodata : lookupA yd cat = none) :
    update_streaks cfg today yesterday st =
      ⟨st.days, ⟨0, st.streaks.longest, some today⟩⟩ := by
  have hbeq : (st.streaks.last_date == some today) = false := by
    cases hb : st.streaks.last_date == some today
    · rfl
    · exact absurd (eq_of_beq hb) hld
  unfold update_streaks
  rw [hyd, hbeq]
  simp only [Bool.not_false, Option.isSome_some, Bool.and_self, if_true, Option.getD_some]
  split
  · next hall =>
    exfalso
    have h1 := List.all_eq_true.mp hall (cat, g) hmem
    simp only [hprod, if_true, hnodata] at h1
    rw [zero_div] at h1
    simp [hg] at h1
  · rfl

/-- C7 witness: the amended theorem at a concrete store in which yesterday
exists but holds no `Coding` bucket. -/
theorem c7_reset_requires_yesterday_record_witness :
    lookupA [("2024-01-09", [("Other", bOther)])] "2024-01-09" = some [("Other", bOther)] ∧
    update_streaks cfgGoal "2024-01-10" "2024-01-09"
        ⟨[("2024-01-09", [("Other", bOther)])], ⟨5, 5, some "2024-01-01"⟩⟩ =
      ⟨[("2024-01-09", [("Other", bOther)])], ⟨0, 5, some "2024-01-10"⟩⟩ :=
  ⟨by decide,
   c7_reset_requires_yesterday_record cfgGoal "2024-01-10" "2024-01-09"
     ⟨[("2024-01-09", [("Other", bOther)])], ⟨5, 5, some "2024-01-01"⟩⟩
     [("Other", bOther)] "Coding" 4 (by decide) (by decide) (by decide) (by decide)
     (by with_unfolding_all decide) (by decide)⟩

/-- C9: persisting the store and loading it back is lossless:
`load_data (save_data st) = some st` for every store whose date keys do
not collide with the reserved `"streaks"` key (date keys are always
`YYYY-MM-DD` strings). Numbers are modelled as exact rationals. -/
theorem c9_persist_load_roundtrip (st : Store)
    (h : st.days.all (fun kv => !(kv.1 == "streaks")) = true) :
    load_data (save_data st) = some st := by
  simp only [save_data, load_data,
    lookupA_append_of_none (lookupA_daysToJ_streaks h) (streaksToJ st.streaks),
    streaksOfJ_toJ, filter_daysToJ_streaks h (streaksToJ st.streaks), daysOfJ_toJ]

/-- C9 witness: the round trip on a store exercising day records, app and
project maps, a `null` projects field and the full streaks ledger. -/
theorem c9_persist_load_roundtrip_witness :
    (stRound.days.all (fun kv => !(kv.1 == "streaks")) = true) ∧
    load_data (save_data stRound) = some stRound :=
  ⟨by decide, c9_persist_load_roundtrip stRound (by decide)⟩

/-- C10 (amended): a bucket first created by `record_time` with a null
project has `projects = None`; a later `record_time` for the same date
and category with a TRUTHY (non-null, non-empty) project raises
`TypeError` after `apps[app]` and `total_seconds` have already been
incremented: the result is `raised = true` with the bucket updated in
place and `projects` still `None`. (With a null — or empty, see the
counterexample — project, or a bucket whose `projects` is a mapping, the
call completes without raising.) -/
theorem c10_truthy_project_on_null_projects_raises (cfg : Config) (today : String)
    (st : Store) (app : String) (dur : ℚ) (p : String) (day : DayL) (b : Bucket)
    (hexcl : cfg.excluded_apps.any
      (fun excluded => isSubOf excluded.toList (lowerL app.toList)) = false)
    (hday : lookupA st.days today = some day)
    (hcat : lookupA day (categorize_app cfg.custom_categories app) = some b)
    (hproj : b.projects = none)
    (hp : ¬ p = "") :
    record_time cfg today st app dur (some p) =
      ⟨⟨setAt st.days today
          (setAt day (categorize_app cfg.custom_categories app)
            ⟨b.total_seconds + dur, bumpApps b.apps app dur, none⟩), st.streaks⟩, true⟩ := by
  have hpt : pyTruthy (some p) = true := by
    simp only [pyTruthy, Bool.not_eq_true']
    exact beq_eq_false_iff_ne.mpr hp
  unfold record_time
  rw [hexcl]
  simp only [Bool.false_eq_true, if_false]
  rw [ensureVal_of_some hday, hday]
  simp only [Option.getD_some]
  rw [ensureVal_of_some hcat, hcat]
  simp only [Option.getD_some, hpt, if_true]
  rw [hproj]

/-- C10 witness: the amended theorem on the store left behind by a first
`record_time("app", 5, None)` call, flushing 6 more seconds with project
`"P"`. -/
theorem c10_truthy_project_on_null_projects_raises_witness :
    lookupA stOther.days "2024-01-10" = some dayOther ∧
    lookupA dayOther (categorize_app cfg0.custom_categories "app") = some bOther ∧
    bOther.projects = none ∧
    record_time cfg0 "2024-01-10" stOther "app" 6 (some "P") =
      ⟨⟨setAt stOther.days "2024-01-10"
          (setAt dayOther (categorize_app cfg0.custom_categories "app")
            ⟨bOther.total_seconds + 6, bumpApps bOther.apps "app" 6, none⟩), stOther.streaks⟩,
       true⟩ :=
  ⟨by decide, by decide, rfl,
   c10_truthy_project_on_null_projects_raises cfg0 "2024-01-10" stOther "app" 6 "P"
     dayOther bOther (by decide) (by decide) (by decide) rfl (by decide)⟩

/-- C10 (counterexample to the claim as stated): the claim says a
subsequent call with any NON-NULL project raises, and that `record_time`
completes only when `projects` is a mapping or the project is null. But
Python tests `if project:` — the empty string is non-null yet falsy, so
`record_time(…, project="")` on the very same `projects = None` bucket
completes without raising. -/
theorem c10_empty_project_completes_cex :
    bOther.projects = none ∧
    (record_time cfg0 "2024-01-10" stOther "app" 6 (some "")).raised = false := by
  refine ⟨rfl, by with_unfolding_all rfl⟩

end TrackTime
